import Mathlib

/-!
Shallow embedding of the status-resolution and label-derivation core of
`src/BaselineStatus.tsx` (the `baseline-status-next` widget), together with
theorems settling the frozen claims about it.

The embedded functions keep the source names (`getBaselineDate`,
`getDescriptionDate`, `getAriaLabel`, `checkAvailability`, `getStatus`,
`renderSupportIcon`) and the component body is split into `missingFeature`,
`computeView` and `resolveBaselineStatus`.
-/

/-- The closed four-value Baseline tier enumeration (`BaselineStatusType`). -/
inductive BaselineStatusType where
  | limited
  | newly
  | widely
  | no_data
deriving DecidableEq

/-- The JavaScript string value of a tier (the TypeScript type is a union of
string literals; this is the identity on those strings). -/
def BaselineStatusType.toKey : BaselineStatusType → String
  | .limited => "limited"
  | .newly => "newly"
  | .widely => "widely"
  | .no_data => "no_data"

/-- One row of the `BASELINE_DEFS` lookup table. -/
structure BaselineDef where
  title : String
  defaultDescription : String
deriving DecidableEq

/-- The `BASELINE_DEFS` constant: tier → title and default description,
with the exact strings of the source (note the U+2019 apostrophe in the
`no_data` row). -/
def BASELINE_DEFS : BaselineStatusType → BaselineDef
  | .limited =>
      ⟨"Limited availability",
       "This feature is not Baseline because it does not work in some of the most widely-used browsers."⟩
  | .newly =>
      ⟨"",
       "This feature works across the latest devices and browser versions. This feature might not work in older devices or browsers."⟩
  | .widely =>
      ⟨"Widely available",
       "This feature is well established and works across many devices and browser versions."⟩
  | .no_data =>
      ⟨"Unknown availability",
       "We currently don’t have browser support information about this feature."⟩

/-- One raw per-browser implementation record (`{ status: string }`). -/
structure BrowserImpl where
  status : String
deriving DecidableEq

/-- The `browser_implementations` record: seven fixed browser/platform keys. -/
structure BrowserImplementations where
  chrome : BrowserImpl
  chrome_android : BrowserImpl
  edge : BrowserImpl
  firefox : BrowserImpl
  firefox_android : BrowserImpl
  safari : BrowserImpl
  safari_ios : BrowserImpl
deriving DecidableEq

/-- The `developer_signals` record. -/
structure DeveloperSignals where
  link : String
  upvotes : Nat
deriving DecidableEq

/-- The `baseline` field of a payload. -/
structure BaselineField where
  low_date : Option String
  status : BaselineStatusType
deriving DecidableEq

/-- The `BaselineStatusData` payload shape. Optional TypeScript fields become
`Option`; an absent field is `none`. -/
structure BaselineStatusData where
  baseline : BaselineField
  developer_signals : Option DeveloperSignals
  browser_implementations : Option BrowserImplementations
  name : String
deriving DecidableEq

/-- Minimal model of a JSX element value: only the element shapes the embedded
component constructs are represented. What matters to the embedded logic is
that a JSX element — the empty fragment `<></>` included — is a JavaScript
object, hence truthy. -/
inductive JSX where
  | fragment
  | strong (text : String)
  | span (text : String)
deriving DecidableEq

/-- JavaScript truthiness of a JSX element: every object is truthy, so this is
constantly `true` (the source suppresses
`@typescript-eslint/no-unnecessary-condition` where it tests a JSX value). -/
def JSX.truthy : JSX → Bool := fun _ => true

/-- Splits a character list at every occurrence of `sep`, the semantics of the
JavaScript `String.prototype.split` with a one-character separator (an empty
input yields one empty piece). Structurally recursive so that the kernel can
evaluate it. -/
def splitChars (sep : Char) : List Char → List Char → List (List Char)
  | [], acc => [acc.reverse]
  | c :: cs, acc =>
      if c = sep then acc.reverse :: splitChars sep cs []
      else splitChars sep cs (c :: acc)

/-- JavaScript-style split of a string at a one-character separator. -/
def jsSplit (sep : Char) (s : String) : List String :=
  (splitChars sep s.data []).map fun cs => ⟨cs⟩

/-- Numeric value of a list of decimal digit characters. -/
def digitsToNat (cs : List Char) : Nat :=
  cs.foldl (fun n c => 10 * n + (c.toNat - 48)) 0

/-- Numeric value of a digit string (meaningful only under an all-digit
guard). -/
def strToNat (s : String) : Nat := digitsToNat s.data

/-- English long month names, as produced by the en-US month-long format. -/
def monthLongName : Nat → String
  | 1 => "January"
  | 2 => "February"
  | 3 => "March"
  | 4 => "April"
  | 5 => "May"
  | 6 => "June"
  | 7 => "July"
  | 8 => "August"
  | 9 => "September"
  | 10 => "October"
  | 11 => "November"
  | 12 => "December"
  | _ => ""

/-- Modelled from the spec: the platform date formatter used by
`getBaselineDate` — `Intl.DateTimeFormat` with locale `"en-US"` and options
year `"numeric"`, month `"long"`, applied to `new Date(s)` — restricted to
ISO `yyyy-mm-dd` (or `yyyy-mm`) inputs, for which it yields the English
`"Month YYYY"` string (spec 4.2). Non-parseable inputs are explicitly out of
contract in the spec; the model maps them to the string `"Invalid Date"` as a
stand-in. -/
def formatEnUsMonthYear (s : String) : String :=
  match jsSplit (Char.ofNat 45) s with
  | [y, m] | [y, m, _] =>
      if y.length == 4 && y.data.all Char.isDigit && m.data.all Char.isDigit &&
          Nat.ble 1 (strToNat m) && Nat.ble (strToNat m) 12 then
        monthLongName (strToNat m) ++ " " ++ y
      else "Invalid Date"
  | _ => "Invalid Date"

/-- A well-formed ISO `yyyy-mm-dd` date string (the in-contract inputs of
spec 4.2). -/
def isValidIsoDate (s : String) : Bool :=
  match jsSplit (Char.ofNat 45) s with
  | [y, m, d] =>
      y.length == 4 && y.data.all Char.isDigit &&
      m.length == 2 && m.data.all Char.isDigit &&
      Nat.ble 1 (strToNat m) && Nat.ble (strToNat m) 12 &&
      d.length == 2 && d.data.all Char.isDigit &&
      Nat.ble 1 (strToNat d) && Nat.ble (strToNat d) 31
  | _ => false

/-- `getBaselineDate`: the formatted `low_date`, or `""` when absent. The
source guards on the JavaScript truthiness of `low_date`, so a present but
empty string also yields `""`. -/
def getBaselineDate (feature : BaselineStatusData) : String :=
  match feature.baseline.low_date with
  | some d => if d = "" then "" else formatEnUsMonthYear d
  | none => ""

/-- `getDescriptionDate`: tier- and date-dependent description. The two dated
sentences are template literals in the source and keep their literal line
breaks and four-space continuation indentation. -/
def getDescriptionDate (baseline : BaselineStatusType) (date : String) : String :=
  if baseline = .newly ∧ date ≠ "" then
    "Since " ++ date ++ " this feature works across the latest\n    devices and browser versions. This feature might not work in older\n    devices or browsers."
  else if baseline = .widely ∧ date ≠ "" then
    "This feature is well established and works across many\n    devices and browser versions. It’s been available across browsers\n    since " ++ date
  else
    (BASELINE_DEFS baseline).defaultDescription

/-- `getAriaLabel`: the single accessibility sentence. The source first
reassigns all four browser words to `"unknown"` when the title is
`"Unknown availability"`, then maps `"available"` to `"yes"`. The `badge`
parameter is a JSX element and the source tests its truthiness. The source
declares default `"no"` values for the four browser words; every call site
passes all four, so the defaults are omitted here. -/
def getAriaLabel (title year : String) (badge : JSX)
    (chrome edge firefox safari : String) : String :=
  let chrome := if title = "Unknown availability" then "unknown" else chrome
  let edge := if title = "Unknown availability" then "unknown" else edge
  let firefox := if title = "Unknown availability" then "unknown" else firefox
  let safari := if title = "Unknown availability" then "unknown" else safari
  "Baseline: " ++ title ++ (if year ≠ "" then " " ++ year else "") ++
    (if badge.truthy then " (newly available)" else "") ++
    ". Supported in Chrome: " ++ (if chrome = "available" then "yes" else chrome) ++
    ". Supported in Edge: " ++ (if edge = "available" then "yes" else edge) ++
    ". Supported in Firefox: " ++ (if firefox = "available" then "yes" else firefox) ++
    ". Supported in Safari: " ++ (if safari = "available" then "yes" else safari) ++ "."

/-- `checkAvailability`: `implementations.every((impl) => impl?.status ===
"available")`. An absent (`undefined`) entry compares unequal to
`"available"`. -/
def checkAvailability (implementations : List (Option BrowserImpl)) : Bool :=
  implementations.all fun impl =>
    match impl with
    | some i => i.status == "available"
    | none => false

/-- `getStatus`: the binary browser word fed to the accessibility label. -/
def getStatus (implementations : List (Option BrowserImpl)) : String :=
  if checkAvailability implementations then "available" else "no"

/-- The support icon element rendered by `renderSupportIcon`, modelled by the
two lookup keys it computes: `support` (the five-way classification, keying
the style table) and `icon` (keying the `SupportIcons` asset table). -/
structure SupportIconView where
  support : String
  icon : String
deriving DecidableEq

/-- `renderSupportIcon`: per-browser five-way classification. Outside the
`limited` tier the classification is the tier value itself. -/
def renderSupportIcon (baseline : BaselineStatusType)
    (implementations : List (Option BrowserImpl)) : SupportIconView :=
  let allAvailable := checkAvailability implementations
  let support :=
    if baseline = .limited then (if allAvailable then "available" else "unavailable")
    else baseline.toKey
  let icon := if support == "newly" || support == "widely" then "available" else support
  ⟨support, icon⟩

/-- The `missingFeature` fallback payload built inside the component:
`name: featureId || "Unknown feature"` (the empty string is falsy). -/
def missingFeature (featureId : String) : BaselineStatusData :=
  { baseline := { low_date := none, status := .no_data }
    developer_signals := none
    browser_implementations := none
    name := if featureId = "" then "Unknown feature" else featureId }

/-- The two Chrome slots `[chrome, chrome_android]` destructured from
`browser_implementations` (all slots `undefined` when the record is absent). -/
def chromeSlots (feature : BaselineStatusData) : List (Option BrowserImpl) :=
  match feature.browser_implementations with
  | some bi => [some bi.chrome, some bi.chrome_android]
  | none => [none, none]

/-- The single Edge slot `[edge]`. -/
def edgeSlots (feature : BaselineStatusData) : List (Option BrowserImpl) :=
  match feature.browser_implementations with
  | some bi => [some bi.edge]
  | none => [none]

/-- The two Firefox slots `[firefox, firefox_android]`. -/
def firefoxSlots (feature : BaselineStatusData) : List (Option BrowserImpl) :=
  match feature.browser_implementations with
  | some bi => [some bi.firefox, some bi.firefox_android]
  | none => [none, none]

/-- The two Safari slots `[safari, safari_ios]`. -/
def safariSlots (feature : BaselineStatusData) : List (Option BrowserImpl) :=
  match feature.browser_implementations with
  | some bi => [some bi.safari, some bi.safari_ios]
  | none => [none, none]

/-- The derived values the component computes from one payload (the
`ResolvedView` of the spec, section 3). -/
structure ResolvedView where
  tier : BaselineStatusType
  name : String
  preTitle : JSX
  title : String
  badge : JSX
  dateLabel : String
  description : String
  year : String
  chromeWord : String
  edgeWord : String
  firefoxWord : String
  safariWord : String
  chromeIcon : SupportIconView
  edgeIcon : SupportIconView
  firefoxIcon : SupportIconView
  safariIcon : SupportIconView
  ariaLabel : String
  learnMore : Option String
  signalsBadge : Option (String × Nat)
deriving DecidableEq

/-- The pure derivation performed by the `BaselineStatus` component body once
the payload is fixed (lines 188-288 of the source). The `year` extraction
models `baselineDate.split(" ")[1]!` with `List.getD 1 ""`; when the formatted
date has no second token the JavaScript value is `undefined`, which every
consumer (`${year ? ...}` and JSX interpolation) treats exactly like `""`. -/
def computeView (featureId : String) (feature : BaselineStatusData) : ResolvedView :=
  let baseline := feature.baseline.status
  let preTitle : JSX :=
    if baseline = .limited ∨ baseline = .no_data then .fragment else .strong "Baseline"
  let title := (BASELINE_DEFS baseline).title
  let badge : JSX :=
    if baseline = .newly then .span "newly available" else .fragment
  let baselineDate := getBaselineDate feature
  let description := getDescriptionDate baseline baselineDate
  let year :=
    if baseline = .newly ∧ baselineDate ≠ "" then (jsSplit (Char.ofNat 32) baselineDate).getD 1 ""
    else ""
  { tier := baseline
    name := feature.name
    preTitle := preTitle
    title := title
    badge := badge
    dateLabel := baselineDate
    description := description
    year := year
    chromeWord := getStatus (chromeSlots feature)
    edgeWord := getStatus (edgeSlots feature)
    firefoxWord := getStatus (firefoxSlots feature)
    safariWord := getStatus (safariSlots feature)
    chromeIcon := renderSupportIcon baseline (chromeSlots feature)
    edgeIcon := renderSupportIcon baseline (edgeSlots feature)
    firefoxIcon := renderSupportIcon baseline (firefoxSlots feature)
    safariIcon := renderSupportIcon baseline (safariSlots feature)
    ariaLabel :=
      getAriaLabel title year badge (getStatus (chromeSlots feature))
        (getStatus (edgeSlots feature)) (getStatus (firefoxSlots feature))
        (getStatus (safariSlots feature))
    learnMore :=
      if baseline = .no_data then none
      else
        some ("https://github.com/web-platform-dx/web-features/blob/main/features/" ++
          featureId ++ ".yml")
    signalsBadge :=
      match feature.developer_signals with
      | some s => if s.link = "" then none else some (s.link, s.upvotes)
      | none => none }

/-- The JSON value obtained from `response.json()`, as far as the component
inspects it: either an object carrying a `"baseline"` key shaped as
`BaselineStatusData`, or any other JSON value (such as the
`BaselineStatusError` object), which fails the `"baseline" in responseJson`
test. -/
inductive JsonBody where
  | feature (d : BaselineStatusData)
  | withoutBaseline
deriving DecidableEq

/-- The body of an HTTP response: either JSON, or text that makes
`response.json()` raise. -/
inductive ResponseBody where
  | json (b : JsonBody)
  | notJson
deriving DecidableEq

/-- The outcome of `await fetch(url, ...)`: a response carrying its `ok` flag
and body, or a rejection (network error). -/
inductive FetchOutcome where
  | response (ok : Bool) (body : ResponseBody)
  | networkError
deriving DecidableEq

/-- The resolve operation of the component: from the fetch outcome to either a
resolved view or an uncaught error. The source awaits `fetch` and
`response.json()` with no surrounding try/catch, so a network error or a
non-JSON body propagates as a rejection; otherwise
`response.ok && "baseline" in responseJson` selects the payload or the
`missingFeature` fallback. -/
def resolveBaselineStatus (featureId : String) (outcome : FetchOutcome) :
    Except Unit ResolvedView :=
  match outcome with
  | .networkError => .error ()
  | .response _ .notJson => .error ()
  | .response ok (.json b) =>
      let feature :=
        match b with
        | .feature d => if ok then d else missingFeature featureId
        | .withoutBaseline => missingFeature featureId
      .ok (computeView featureId feature)

/-- Follows the wording of the spec (section 4.7, claim C3): the spoken word for one
browser — the raw token, forced to `"unknown"` under the
`"Unknown availability"` title, with `"available"` rendered as `"yes"`. -/
def spec_ariaBrowserWord (title token : String) : String :=
  let token := if title = "Unknown availability" then "unknown" else token
  if token = "available" then "yes" else token

/-- Follows the wording of the spec (section 4.5, claim C4): a logical browser is
fully available only if every supplied record has status literally
`"available"`, an absent record counting as not available. -/
def spec_fullyAvailable (implementations : List (Option BrowserImpl)) : Bool :=
  implementations.all fun impl => (impl.map BrowserImpl.status).getD "" == "available"

/-- Follows the wording of the spec (section 4.6, claim C5): the five-way support
icon classification — the per-browser conjunction decides only in the
`limited` tier, every other tier classifies as itself. -/
def spec_supportIconClass (tier : BaselineStatusType)
    (implementations : List (Option BrowserImpl)) : String :=
  if tier = .limited then
    (if spec_fullyAvailable implementations then "available" else "unavailable")
  else tier.toKey

/-- Shared helper: the source conjunction `checkAvailability` coincides with
the availability conjunction stated by the spec. -/
theorem checkAvailability_eq_spec (impls : List (Option BrowserImpl)) :
    checkAvailability impls = spec_fullyAvailable impls := by
  unfold checkAvailability spec_fullyAvailable
  congr 1
  funext impl
  cases impl <;> simp

/-- C1: the claim says the accessibility label carries the suffix
" (newly available)" exactly when the tier is `newly`; in the code the badge
argument of `getAriaLabel` is a JSX element, every JSX element is truthy, and
the suffix is therefore appended for every tier. Evaluated here at a `widely`
payload, whose label nonetheless reads "... (newly available). ...". -/
theorem c1_badge_suffix_always_present :
    (computeView "flexbox" ⟨⟨none, .widely⟩, none, none, "Flexbox"⟩).ariaLabel =
      "Baseline: Widely available (newly available). Supported in Chrome: no. Supported in Edge: no. Supported in Firefox: no. Supported in Safari: no." ∧
    BaselineStatusType.widely ≠ BaselineStatusType.newly := by
  exact ⟨rfl, by decide⟩

/-- C2 (counterexample): a network error is a retrieval failure, yet the
resolve operation raises it to the caller (the source has no try/catch around
`await fetch`), instead of returning the `no_data` fallback view. -/
theorem c2_counterexample_network_error :
    resolveBaselineStatus "anchor-positioning" FetchOutcome.networkError =
      Except.error () := rfl

/-- C2 (amended): for the retrieval failures the code actually intercepts — a
non-success HTTP status whose body still parses as JSON, or a JSON body
missing the `baseline` field — no error is raised and the fallback view is
returned: tier `no_data`, `name` the requested identifier (or
"Unknown feature" when that identifier is empty), no other payload fields
populated, and every derived field computing without error on the fallback. -/
theorem c2_amended_failure_fallback (fid : String) (ok : Bool) (b : JsonBody)
    (h : ok = false ∨ b = JsonBody.withoutBaseline) :
    resolveBaselineStatus fid (FetchOutcome.response ok (ResponseBody.json b)) =
      Except.ok (computeView fid (missingFeature fid)) ∧
    (computeView fid (missingFeature fid)).tier = BaselineStatusType.no_data ∧
    (computeView fid (missingFeature fid)).name =
      (if fid = "" then "Unknown feature" else fid) ∧
    (computeView fid (missingFeature fid)).dateLabel = "" ∧
    (computeView fid (missingFeature fid)).year = "" ∧
    (computeView fid (missingFeature fid)).description =
      "We currently don’t have browser support information about this feature." ∧
    (computeView fid (missingFeature fid)).signalsBadge = none ∧
    (computeView fid (missingFeature fid)).learnMore = none ∧
    (computeView fid (missingFeature fid)).ariaLabel =
      "Baseline: Unknown availability (newly available). Supported in Chrome: unknown. Supported in Edge: unknown. Supported in Firefox: unknown. Supported in Safari: unknown." := by
  refine ⟨?_, rfl, rfl, rfl, rfl, rfl, rfl, rfl, rfl⟩
  rcases h with h | h
  · subst h; cases b <;> rfl
  · subst h; cases ok <;> rfl

/-- C2 (witness): the amended theorem applied to a concrete successful
response whose JSON body lacks the `baseline` field. -/
theorem c2_witness :
    (true = false ∨ JsonBody.withoutBaseline = JsonBody.withoutBaseline) ∧
    resolveBaselineStatus "anchor-positioning"
        (FetchOutcome.response true (ResponseBody.json JsonBody.withoutBaseline)) =
      Except.ok (computeView "anchor-positioning" (missingFeature "anchor-positioning")) :=
  ⟨Or.inr rfl,
   (c2_amended_failure_fallback "anchor-positioning" true JsonBody.withoutBaseline
      (Or.inr rfl)).1⟩

/-- C3: in the accessibility label each of the four browser words is "yes"
when the supplied token is "available" and otherwise the token itself, except
that under the title "Unknown availability" (tier `no_data`) all four words
are forced to "unknown"; and the component feeds `getAriaLabel` exactly the
`getStatus` words of the four logical browsers. -/
theorem c3_aria_browser_words (title year : String) (badge : JSX)
    (c e f s : String) (fid : String) (p : BaselineStatusData) :
    (∃ pre, getAriaLabel title year badge c e f s =
      pre ++ ". Supported in Chrome: " ++ spec_ariaBrowserWord title c ++
        ". Supported in Edge: " ++ spec_ariaBrowserWord title e ++
        ". Supported in Firefox: " ++ spec_ariaBrowserWord title f ++
        ". Supported in Safari: " ++ spec_ariaBrowserWord title s ++ ".") ∧
    (computeView fid p).ariaLabel =
      getAriaLabel (computeView fid p).title (computeView fid p).year
        (computeView fid p).badge (getStatus (chromeSlots p)) (getStatus (edgeSlots p))
        (getStatus (firefoxSlots p)) (getStatus (safariSlots p)) := by
  refine ⟨⟨"Baseline: " ++ title ++ (if year ≠ "" then " " ++ year else "") ++
    (if JSX.truthy badge then " (newly available)" else ""), ?_⟩, rfl⟩
  rfl

/-- C4: a logical browser is fully available exactly when every supplied
record has status literally "available", an absent record counting as not
available; in particular desktop-only availability, and browsers all of whose
slots are absent, are not fully available. -/
theorem c4_fully_available_conjunction (impls : List (Option BrowserImpl))
    (s : String) (h : s ≠ "available") :
    checkAvailability impls = spec_fullyAvailable impls ∧
    checkAvailability [some ⟨"available"⟩, none] = false ∧
    checkAvailability [some ⟨"available"⟩, some ⟨s⟩] = false ∧
    checkAvailability [none] = false ∧
    checkAvailability [none, none] = false := by
  refine ⟨checkAvailability_eq_spec impls, by decide, ?_, by decide, by decide⟩
  simp [checkAvailability, h]

/-- C4 (witness): the conjunction theorem at a concrete slot list and the
concrete non-available token "no". -/
theorem c4_witness :
    "no" ≠ "available" ∧
    (checkAvailability [some ⟨"available"⟩, some ⟨"available"⟩] =
        spec_fullyAvailable [some ⟨"available"⟩, some ⟨"available"⟩] ∧
      checkAvailability [some ⟨"available"⟩, none] = false ∧
      checkAvailability [some ⟨"available"⟩, some ⟨"no"⟩] = false ∧
      checkAvailability [none] = false ∧
      checkAvailability [none, none] = false) :=
  ⟨by decide,
   c4_fully_available_conjunction [some ⟨"available"⟩, some ⟨"available"⟩] "no" (by decide)⟩

/-- C5: the five-way support icon classification equals the classification
stated by the spec — decided by the per-browser conjunction in the `limited`
tier, and equal to the tier itself (independently of the records) otherwise;
in particular tier `widely` with Safari desktop unavailable and Safari iOS
available still classifies as "widely". -/
theorem c5_support_icon_classification (tier : BaselineStatusType)
    (impls : List (Option BrowserImpl)) :
    (renderSupportIcon tier impls).support = spec_supportIconClass tier impls ∧
    (renderSupportIcon .widely [some ⟨"unavailable"⟩, some ⟨"available"⟩]).support =
      "widely" := by
  refine ⟨?_, rfl⟩
  simp only [renderSupportIcon, spec_supportIconClass, checkAvailability_eq_spec]

/-- C6 (counterexample): for tier `newly` with formatted date "March 2024"
the description is not the single-line sentence stated by the claim — the
source template literal keeps its line breaks and indentation. -/
theorem c6_counterexample :
    getDescriptionDate BaselineStatusType.newly "March 2024" ≠
      "Since March 2024 this feature works across the latest devices and browser versions. This feature might not work in older devices or browsers." := by
  decide

/-- C6 (amended): with a non-empty date, tier `newly` yields the dated
sentence whose two line gaps are a newline plus four spaces, tier `widely`
yields the dated well-established sentence (same literal line breaks, ending
in the date); every other case yields the default description of the tier;
and for date "March 2024" the `newly` description starts with
"Since March 2024". -/
theorem c6_amended_description (b : BaselineStatusType) (d : String) :
    getDescriptionDate b d =
      (if b = BaselineStatusType.newly ∧ d ≠ "" then
        "Since " ++ d ++ " this feature works across the latest\n    devices and browser versions. This feature might not work in older\n    devices or browsers."
       else if b = BaselineStatusType.widely ∧ d ≠ "" then
        "This feature is well established and works across many\n    devices and browser versions. It’s been available across browsers\n    since " ++ d
       else (BASELINE_DEFS b).defaultDescription) ∧
    (∃ suffix, getDescriptionDate BaselineStatusType.newly "March 2024" =
      "Since March 2024" ++ suffix) :=
  ⟨rfl,
   ⟨" this feature works across the latest\n    devices and browser versions. This feature might not work in older\n    devices or browsers.",
    by decide⟩⟩

/-- C7: the date label is empty when `low_date` is absent, and for a present
well-formed ISO date it is the fixed en-US "Month YYYY" rendering; for
`low_date` 2024-03-15 it is "March 2024". -/
theorem c7_date_label (p q : BaselineStatusData) (d : String)
    (hd : p.baseline.low_date = some d) (hv : isValidIsoDate d = true)
    (hq : q.baseline.low_date = none) :
    getBaselineDate p = formatEnUsMonthYear d ∧
    getBaselineDate q = "" ∧
    getBaselineDate ⟨⟨some "2024-03-15", .widely⟩, none, none, "x"⟩ = "March 2024" := by
  refine ⟨?_, ?_, by decide⟩
  · have hne : d ≠ "" := by
      intro he
      rw [he] at hv
      exact absurd hv (by decide)
    simp only [getBaselineDate, hd]
    simp [hne]
  · simp only [getBaselineDate, hq]

/-- C7 (witness): the date-label theorem at a concrete payload carrying
`low_date` 2024-03-15 and a concrete payload without a date. -/
theorem c7_witness :
    isValidIsoDate "2024-03-15" = true ∧
    getBaselineDate ⟨⟨some "2024-03-15", .newly⟩, none, none, "grid"⟩ =
      formatEnUsMonthYear "2024-03-15" ∧
    getBaselineDate ⟨⟨none, .newly⟩, none, none, "grid"⟩ = "" :=
  ⟨by decide,
   (c7_date_label ⟨⟨some "2024-03-15", .newly⟩, none, none, "grid"⟩
      ⟨⟨none, .newly⟩, none, none, "grid"⟩ "2024-03-15" rfl (by decide) rfl).1,
   (c7_date_label ⟨⟨some "2024-03-15", .newly⟩, none, none, "grid"⟩
      ⟨⟨none, .newly⟩, none, none, "grid"⟩ "2024-03-15" rfl (by decide) rfl).2.1⟩

/-- C8: the year token is the second whitespace-separated word of the
formatted date exactly when the tier is `newly` and the formatted date is
non-empty, and the empty string otherwise; for `low_date` 2024-03-15 under
tier `newly` it is "2024". -/
theorem c8_year_token (fid : String) (p : BaselineStatusData) :
    (computeView fid p).year =
      (if p.baseline.status = BaselineStatusType.newly ∧ getBaselineDate p ≠ "" then
        (jsSplit (Char.ofNat 32) (getBaselineDate p)).getD 1 ""
       else "") ∧
    (computeView "x" ⟨⟨some "2024-03-15", .newly⟩, none, none, "grid"⟩).year = "2024" :=
  ⟨rfl, by decide⟩

/-- C9: resolution is deterministic and stateless — the derivation is a pure
function of the payload, so resolving the same payload (or the same fetch
outcome) twice yields identical derived output, field by field. -/
theorem c9_idempotent_resolution (fid : String) (p : BaselineStatusData)
    (o : FetchOutcome) :
    computeView fid p = computeView fid p ∧
    ((computeView fid p).title, (computeView fid p).dateLabel,
      (computeView fid p).description, (computeView fid p).year,
      (computeView fid p).chromeWord, (computeView fid p).edgeWord,
      (computeView fid p).firefoxWord, (computeView fid p).safariWord,
      (computeView fid p).chromeIcon, (computeView fid p).edgeIcon,
      (computeView fid p).firefoxIcon, (computeView fid p).safariIcon,
      (computeView fid p).ariaLabel) =
    ((computeView fid p).title, (computeView fid p).dateLabel,
      (computeView fid p).description, (computeView fid p).year,
      (computeView fid p).chromeWord, (computeView fid p).edgeWord,
      (computeView fid p).firefoxWord, (computeView fid p).safariWord,
      (computeView fid p).chromeIcon, (computeView fid p).edgeIcon,
      (computeView fid p).firefoxIcon, (computeView fid p).safariIcon,
      (computeView fid p).ariaLabel) ∧
    resolveBaselineStatus fid o = resolveBaselineStatus fid o :=
  ⟨rfl, rfl, rfl⟩

/-- C10: the "Learn more" documentation link (the web-features page of the
feature) is emitted exactly when the tier is not `no_data`; the fallback view
carries no link. -/
theorem c10_learn_more_link (fid : String) (p : BaselineStatusData) :
    ((computeView fid p).learnMore =
        some ("https://github.com/web-platform-dx/web-features/blob/main/features/" ++
          fid ++ ".yml")
      ↔ p.baseline.status ≠ BaselineStatusType.no_data) ∧
    (computeView fid (missingFeature fid)).learnMore = none := by
  refine ⟨?_, rfl⟩
  have hl : (computeView fid p).learnMore =
      (if p.baseline.status = BaselineStatusType.no_data then none
       else
        some ("https://github.com/web-platform-dx/web-features/blob/main/features/" ++
          fid ++ ".yml")) := rfl
  rw [hl]
  by_cases hn : p.baseline.status = BaselineStatusType.no_data
  · simp [hn]
  · simp [hn]
